import Mathlib

/-!
Verification of the variable-introspection and lazy-loading engine of gdlv
(`infovars.go`, with load configurations from `commands.go`).

Go strings are modelled as lists of characters (`Str`); all strings handled
by the engine are ASCII, where Go's byte-wise operations and the char-wise
operations used here agree.  Machine integers are modelled as `Nat`/`Int`
with explicit reductions modulo `2 ^ 64` where Go's `uint64` overflow
matters.
-/

namespace Gdlv

/-- Go strings, as lists of characters. -/
abbrev Str := List Char

/-- Embeds a Lean string literal into the `Str` model. -/
def str (s : String) : Str := s.toList

/-- Decimal rendering of a natural number (Go `%d` / `strconv.Itoa`). -/
def natStr (n : Nat) : Str := Nat.toDigits 10 n

/-- Decimal rendering of an integer (Go `%d`). -/
def intStr (i : Int) : Str :=
  if i < 0 then '-' :: natStr i.natAbs else natStr i.toNat

/-- Signed decimal rendering with an explicit sign (Go `%+d`). -/
def plusIntStr (i : Int) : Str :=
  if i < 0 then '-' :: natStr i.natAbs else '+' :: natStr i.toNat

/-- Hexadecimal rendering with a `0x` marker (Go `%#x`). -/
def hexStr (n : Nat) : Str := str "0x" ++ Nat.toDigits 16 n

/-- Accumulating decimal parser: consumes the whole string, failing on any
non-digit character. -/
def decDigits : Str → Nat → Option Nat
  | [], acc => some acc
  | c :: rest, acc =>
      if c.isDigit then decDigits rest (acc * 10 + (c.toNat - 48)) else none

/-- Parses a non-empty all-digit string as a natural number. -/
def parseDecNat (s : Str) : Option Nat :=
  if s = [] then none else decDigits s 0

/-- Go `strconv.Atoi` with the error discarded (`n, _ := strconv.Atoi(s)`):
`n` is `0` whenever the string is not a decimal integer.  (On 64-bit range
overflow Go clamps instead; the clamped value and the unbounded value are on
the same side of the printable-ASCII window `32..126`, the only use made of
this function, so clamping is not modelled.) -/
def goAtoi (s : Str) : Int :=
  match s with
  | '-' :: rest => match parseDecNat rest with
    | some n => -(n : Int)
    | none => 0
  | '+' :: rest => match parseDecNat rest with
    | some n => (n : Int)
    | none => 0
  | _ => match parseDecNat s with
    | some n => (n : Int)
    | none => 0

/-- Go `strconv.ParseUint(s, 10, 64)`: digits only, must fit in 64 bits. -/
def goParseUint64 (s : Str) : Option Nat :=
  match parseDecNat s with
  | some n => if n < 2 ^ 64 then some n else none
  | none => none

/-- Go `strconv.ParseInt(s, 10, 64)`: optional sign, 64-bit signed range. -/
def goParseInt64 (s : Str) : Option Int :=
  match s with
  | '-' :: rest => match parseDecNat rest with
    | some n => if n ≤ 2 ^ 63 then some (-(n : Int)) else none
    | none => none
  | '+' :: rest => match parseDecNat rest with
    | some n => if n < 2 ^ 63 then some (n : Int) else none
    | none => none
  | _ => match parseDecNat s with
    | some n => if n < 2 ^ 63 then some (n : Int) else none
    | none => none

/-- Escapes one character as Go's `strconv.Quote` does (ASCII-faithful; the
engine only quotes ASCII data). -/
def goQuoteChar (c : Char) : Str :=
  if c = '"' then ['\\', '"']
  else if c = '\\' then ['\\', '\\']
  else if c = Char.ofNat 7 then ['\\', 'a']
  else if c = Char.ofNat 8 then ['\\', 'b']
  else if c = Char.ofNat 12 then ['\\', 'f']
  else if c = '\n' then ['\\', 'n']
  else if c = Char.ofNat 13 then ['\\', 'r']
  else if c = '\t' then ['\\', 't']
  else if c = Char.ofNat 11 then ['\\', 'v']
  else if c.toNat < 32 ∨ c.toNat = 127 then
    ['\\', 'x', Nat.digitChar (c.toNat / 16), Nat.digitChar (c.toNat % 16)]
  else [c]

/-- Go `%q` applied to a string (`strconv.Quote`). -/
def goQuoteStr (s : Str) : Str :=
  '"' :: s.flatMap goQuoteChar ++ ['"']

/-- Go `%q` applied to an integer holding a printable-ASCII code point: a
single-quoted character literal. -/
def goQuoteRuneNum (n : Int) : Str :=
  if n = 39 then ['\'', '\\', '\'', '\'']
  else if n = 92 then ['\'', '\\', '\\', '\'']
  else ['\'', Char.ofNat n.toNat, '\'']

/-- Civil date from a count of days since 1970-01-01 (proleptic Gregorian
calendar, works for negative day counts). -/
def civilFromDays (z0 : Int) : Int × Nat × Nat :=
  let z := z0 + 719468
  let era := Int.fdiv z 146097
  let doe := (z - era * 146097).toNat
  let yoe := (doe - doe / 1460 + doe / 36524 - doe / 146096) / 365
  let doy := doe - (365 * yoe + yoe / 4 - yoe / 100)
  let mp := (5 * doy + 2) / 153
  let d := doy - (153 * mp + 2) / 5 + 1
  let m := if mp < 10 then mp + 3 else mp - 9
  ((yoe : Int) + era * 400 + (if m ≤ 2 then 1 else 0), m, d)

/-- Zero-padded two-digit decimal field. -/
def pad2 (n : Nat) : Str := if n < 10 then '0' :: natStr n else natStr n

/-- Year field of an RFC 3339 timestamp (four digits, zero padded). -/
def pad4Year (y : Int) : Str :=
  if y < 0 then '-' :: pad4 y.natAbs else pad4 y.toNat
where
  pad4 (n : Nat) : Str :=
    if n < 10 then '0' :: '0' :: '0' :: natStr n
    else if n < 100 then '0' :: '0' :: natStr n
    else if n < 1000 then '0' :: natStr n
    else natStr n

/-- Go `t.Format(time.RFC3339)` for a UTC time given as seconds since the
Unix epoch (whole seconds, so no fractional part is printed). -/
def unixRFC3339 (t : Int) : Str :=
  let days := Int.fdiv t 86400
  let sod := (t - days * 86400).toNat
  match civilFromDays days with
  | (y, m, d) =>
      pad4Year y ++ '-' :: pad2 m ++ '-' :: pad2 d ++
        'T' :: pad2 (sod / 3600) ++ ':' :: pad2 (sod % 3600 / 60) ++
        ':' :: pad2 (sod % 60) ++ ['Z']

/-- The closed `reflect.Kind` enumeration carried by remote value snapshots
(`api.Variable.Kind`); `invalid` is `reflect.Invalid`, the zero kind also
used as the "no parent" marker in `wrapApiVariables`. -/
inductive Kind where
  | invalid | bool | int | int8 | int16 | int32 | int64
  | uint | uint8 | uint16 | uint32 | uint64 | uintptr
  | float32 | float64 | complex64 | complex128
  | array | chan | func | interface | map | ptr | slice
  | string | struct | unsafePointer
  deriving DecidableEq, Repr

/-- A raw value snapshot produced by the remote debugger service
(`api.Variable`): the fields of the wire struct that the introspection
engine reads.  `children` is the ordered child sequence; for maps it is the
flattened alternating key/value sequence. -/
inductive ApiVariable where
  | mk (name typ : Str) (kind : Kind) (value : Str) (addr : Nat) (len : Int)
      (onlyAddr : Bool) (unreadable : Str) (children : List ApiVariable)

/-- Field accessor: `Name`. -/
def ApiVariable.name : ApiVariable → Str
  | .mk n _ _ _ _ _ _ _ _ => n

/-- Field accessor: `Type`. -/
def ApiVariable.typ : ApiVariable → Str
  | .mk _ t _ _ _ _ _ _ _ => t

/-- Field accessor: `Kind`. -/
def ApiVariable.kind : ApiVariable → Kind
  | .mk _ _ k _ _ _ _ _ _ => k

/-- Field accessor: `Value`. -/
def ApiVariable.value : ApiVariable → Str
  | .mk _ _ _ v _ _ _ _ _ => v

/-- Field accessor: `Addr`. -/
def ApiVariable.addr : ApiVariable → Nat
  | .mk _ _ _ _ a _ _ _ _ => a

/-- Field accessor: `Len`. -/
def ApiVariable.len : ApiVariable → Int
  | .mk _ _ _ _ _ l _ _ _ => l

/-- Field accessor: `OnlyAddr`. -/
def ApiVariable.onlyAddr : ApiVariable → Bool
  | .mk _ _ _ _ _ _ o _ _ => o

/-- Field accessor: `Unreadable`. -/
def ApiVariable.unreadable : ApiVariable → Str
  | .mk _ _ _ _ _ _ _ u _ => u

/-- Field accessor: `Children`. -/
def ApiVariable.children : ApiVariable → List ApiVariable
  | .mk _ _ _ _ _ _ _ _ cs => cs

/-- Go's `v.Name = x` on a raw snapshot. -/
def ApiVariable.setName : ApiVariable → Str → ApiVariable
  | .mk _ t k v a l o u cs, n => .mk n t k v a l o u cs

/-- Go's `v.Unreadable = x` on a raw snapshot. -/
def ApiVariable.setUnreadable : ApiVariable → Str → ApiVariable
  | .mk n t k v a l o _ cs, u => .mk n t k v a l o u cs

/-- Go's `v.Len = x` on a raw snapshot. -/
def ApiVariable.setLen : ApiVariable → Int → ApiVariable
  | .mk n t k v a _ o u cs, l => .mk n t k v a l o u cs

mutual

/-- Structural size of a snapshot, counting nodes only (names and values do
not contribute), used as the termination measure of the wrapper. -/
def ApiVariable.size : ApiVariable → Nat
  | .mk _ _ _ _ _ _ _ _ cs => 1 + ApiVariable.sizeList cs

/-- Total size of a snapshot list. -/
def ApiVariable.sizeList : List ApiVariable → Nat
  | [] => 0
  | v :: rest => ApiVariable.size v + ApiVariable.sizeList rest

end

theorem ApiVariable.size_setName (v : ApiVariable) (n : Str) :
    (v.setName n).size = v.size := by
  cases v; rfl

theorem ApiVariable.size_pos (v : ApiVariable) : 0 < v.size := by
  cases v; simp [ApiVariable.size]

theorem ApiVariable.sizeList_children_lt (v : ApiVariable) :
    ApiVariable.sizeList v.children < v.size := by
  cases v; simp [ApiVariable.size, ApiVariable.children]

/-- A display node (`Variable` in `infovars.go`): the raw snapshot it wraps
plus the display-owned derived fields.  The child list may contain `none`
entries: the alignment placeholders of the map encoding (`nil` in Go). -/
inductive Variable where
  | mk (base : ApiVariable) (value expression displayName shortType varname : Str)
      (children : List (Option Variable))

/-- The embedded raw snapshot (`v.Variable`). -/
def Variable.base : Variable → ApiVariable
  | .mk b _ _ _ _ _ _ => b

/-- Field accessor: `Value` (the shown, formatted value). -/
def Variable.value : Variable → Str
  | .mk _ v _ _ _ _ _ => v

/-- Field accessor: `Expression`. -/
def Variable.expression : Variable → Str
  | .mk _ _ e _ _ _ _ => e

/-- Field accessor: `DisplayName`. -/
def Variable.displayName : Variable → Str
  | .mk _ _ _ d _ _ _ => d

/-- Field accessor: `ShortType`. -/
def Variable.shortType : Variable → Str
  | .mk _ _ _ _ s _ _ => s

/-- Field accessor: `Varname` (the unique id disambiguating siblings). -/
def Variable.varname : Variable → Str
  | .mk _ _ _ _ _ vn _ => vn

/-- Field accessor: `Children`. -/
def Variable.children : Variable → List (Option Variable)
  | .mk _ _ _ _ _ _ cs => cs

/-- Kind of the wrapped snapshot (`v.Kind` through the embedded struct). -/
def Variable.kind (v : Variable) : Kind := v.base.kind

/-- Go's `v.DisplayName = x` on a display node. -/
def Variable.setDisplayName : Variable → Str → Variable
  | .mk b v e _ s vn cs, d => .mk b v e d s vn cs

/-- Go's `v.Varname = x` on a display node. -/
def Variable.setVarname : Variable → Str → Variable
  | .mk b v e d s _ cs, vn => .mk b v e d s vn cs

/-- Go's `v.Children = x` on a display node. -/
def Variable.setChildren : Variable → List (Option Variable) → Variable
  | .mk b v e d s vn _, cs => .mk b v e d s vn cs

/-- Go's `v.Len = x` on a display node (the embedded raw field). -/
def Variable.setLen : Variable → Int → Variable
  | .mk b v e d s vn cs, l => .mk (b.setLen l) v e d s vn cs

/-- Go's `v.Unreadable = x` on a display node (the embedded raw field). -/
def Variable.setUnreadable : Variable → Str → Variable
  | .mk b v e d s vn cs, u => .mk (b.setUnreadable u) v e d s vn cs

/-- Modelled from the spec: the installed formatters themselves (`varFormat`
address overrides and `conf.CustomFormatters` type formatters, populated by
GUI/configuration code outside `infovars.go`/`commands.go`) are, per §4.3 of
the specification, pure lookup rules that compute the node's shown
(formatted) value; a formatter reads the partially built node and returns
the new shown value string. -/
def Formatter := Variable → Str

/-- The ambient formatting environment of the wrapper: the address-keyed
override table `varFormat`, the type-keyed table `conf.CustomFormatters`,
and `prettyprint.ShortenType` (defined outside the embedded files; no claim
depends on the shortened rendering itself). -/
structure FmtEnv where
  varFormat : Nat → Option Formatter
  customFormatters : Str → Option Formatter
  shortenType : Str → Str

/-- The partially built display node at the moment formatters run in
`wrapApiVariable`: raw snapshot embedded, `Value` and `Expression` set,
every other derived field still zero. -/
def preNode (v : ApiVariable) (expr : Str) : Variable :=
  .mk v v.value expr [] [] [] []

/-- `fieldVariable` of `infovars.go`: the first child with the given name. -/
def fieldVariable (v : ApiVariable) (name : Str) : Option ApiVariable :=
  v.children.find? (fun c => c.name == name)

/-- Number of seconds between the unix epoch and the epoch of
`time.Time.wall` (1 Jan 1885), as in `formatTime`. -/
def unixTimestampOfWallEpoch : Int := -2682288000

/-- Number of seconds between 0001-01-01T00:00:00Z (Go's zero `time.Time`)
and the unix epoch: 719162 days. -/
def unixTimestampOfZeroTime : Int := -62135596800

/-- `formatTime` of `infovars.go`: decode the packed `time.Time`
representation from the `wall`/`ext` sub-fields.  The high bit of `wall`
flags a monotonic reading; if set, bits 30–62 of `wall` hold 33 bits of
wall seconds since 1 Jan 1885 (`wall << 1 >> 31` on `uint64`).  Otherwise
`ext` holds signed seconds since the zero time; the chunked
`(time.Time).Add` loop of the source adds exactly `ext` seconds in total,
modelled directly as the zero time advanced by `ext` seconds. -/
def formatTime (v : ApiVariable) : Str :=
  match fieldVariable v (str "wall"), fieldVariable v (str "ext") with
  | some wallv, some extv =>
    if wallv.unreadable ≠ [] ∨ extv.unreadable ≠ [] ∨
        wallv.value = [] ∨ extv.value = [] then
      v.value
    else
      match goParseUint64 wallv.value, goParseInt64 extv.value with
      | some wall, some ext =>
          if Nat.testBit wall 63 then
            let sec : Nat := wall * 2 % 2 ^ 64 / 2 ^ 31
            str "time.Time(" ++ unixRFC3339 ((sec : Int) + unixTimestampOfWallEpoch) ++
              str ", " ++ plusIntStr ext ++ [')']
          else
            unixRFC3339 (ext + unixTimestampOfZeroTime)
      | _, _ => v.value
  | _, _ => v.value

/-- `minInlineKeyValueLen` of `wrapApiVariables`. -/
def minInlineKeyValueLen : Nat := 20

/-- The `keyname` computed for a map key in `wrapApiVariables`: non-empty
exactly when the key is folded into its value's display name (childless,
short printed value, string or numeric kind). -/
def mapKeyName (key : ApiVariable) : Str :=
  if key.children.length = 0 ∧ key.value.length < minInlineKeyValueLen then
    match key.kind with
    | .string => '[' :: (goQuoteStr key.value ++ [']'])
    | .int | .int8 | .int16 | .int32 | .int64
    | .uint | .uint8 | .uint16 | .uint32 | .uint64 | .uintptr
    | .complex64 | .complex128 | .float32 | .float64 =>
        '[' :: (key.value ++ [']'])
    | _ => []
  else []

/-- The struct/channel branch's un-wrapping of an enclosing `(*(` … `))`
pointer dereference (`x = x[3 : len(x)-2]` under the
`HasPrefix`/`HasSuffix` guard). -/
def stripPtrWrapper (x : Str) : Str :=
  if (str "(*(").isPrefixOf x && (str "))").isSuffixOf x then
    (x.drop 3).take (x.length - 5)
  else x

/-- Child display name synthesized by `wrapApiVariables` for a child of a
parent of the given kind: the `childName` assignments of its switch. -/
def childNameFor (kind : Kind) (rawName : Str) (idx : Nat) : Str :=
  match kind with
  | .interface => str "data"
  | .slice | .array => '[' :: (natStr idx ++ [']'])
  | _ => rawName

/-- Child re-evaluation expression synthesized by `wrapApiVariables` for a
child of a parent of the given kind: the `childExpr` assignments of its
switch (`.invalid` is the `case 0` top-level rule). -/
def childExprFor (kind : Kind) (expr rawName : Str) (idx : Nat) : Str :=
  match kind with
  | .interface => []
  | .slice | .array =>
      if expr ≠ [] then expr ++ '[' :: (natStr idx ++ [']']) else []
  | .ptr => if expr ≠ [] then str "(*(" ++ (expr ++ str "))") else []
  | .struct | .chan =>
      if expr ≠ [] then stripPtrWrapper expr ++ '.' :: rawName else []
  | .invalid => rawName
  | _ => []

/-- The formatting-precedence chain of `wrapApiVariable` (its
`if`/`else if` ladder computing `r.Value`): address-keyed override, then
the `uint8`/`int32` printable-ASCII annotation branch, then the type-keyed
custom formatter (gated on the `customFormatters` argument), then the
`time.Time` decoder, then the raw value string. -/
def wrapValue (env : FmtEnv) (v : ApiVariable) (expr : Str)
    (customFormatters : Bool) : Str :=
  match env.varFormat v.addr with
  | some f => f (preNode v expr)
  | none =>
    if (v.kind = .int ∨ v.kind = .uint) ∧
        (v.typ = str "uint8" ∨ v.typ = str "int32") then
      let n := goAtoi v.value
      if 32 ≤ n ∧ n ≤ 126 then v.value ++ ' ' :: goQuoteRuneNum n
      else v.value
    else
      match env.customFormatters v.typ with
      | some f =>
          if customFormatters then f (preNode v expr)
          else if v.typ = str "time.Time" then formatTime v else v.value
      | none => if v.typ = str "time.Time" then formatTime v else v.value

/-- The interface-kind display-name collapse at the end of
`wrapApiVariable`: when an interface node's first child is a pointer with a
child of its own, the grandchild inherits the pointer child's display name.
(Go mutates `r.Children[0].Children[0].DisplayName` through pointers; here
the patched list is rebuilt.  The `nil` entries matched away cannot occur
among interface-kind children.) -/
def interfaceCollapse (kind : Kind) (children : List (Option Variable)) :
    List (Option Variable) :=
  if kind = .interface then
    match children with
    | some c0 :: crest =>
        if c0.kind = .ptr then
          match c0.children with
          | some c00 :: c0rest =>
              some (c0.setChildren
                (some (c00.setDisplayName c0.displayName) :: c0rest)) :: crest
          | _ => some c0 :: crest
        else some c0 :: crest
    | _ => children
  else children

mutual

/-- `wrapApiVariable` of `infovars.go`: converts one raw snapshot into a
display node — formatting-precedence chain for the shown value
(`wrapValue`), display name defaulting to the type name, `Varname` seeded
from the display name, recursive child wrapping, and the interface/pointer
display-name collapse (`interfaceCollapse`). -/
def wrapApiVariable (env : FmtEnv) (v : ApiVariable) (name expr : Str)
    (customFormatters : Bool) : Variable :=
  let displayName := if name ≠ [] then name else v.typ
  .mk v (wrapValue env v expr customFormatters) expr displayName
    (env.shortenType v.typ) displayName
    (interfaceCollapse v.kind
      (wrapApiVariables env v.children v.kind 0 expr customFormatters))
termination_by v.size * 2
decreasing_by
all_goals
  have h := ApiVariable.sizeList_children_lt v
  omega

/-- `wrapApiVariables` of `infovars.go`: wraps a child sequence.  For map
parents the flattened key/value pairs are consumed two at a time — a
foldable key collapses the pair to one synthetic node followed by a `nil`
placeholder, any other pair becomes a `[i key]`/`[i value]` node pair (the
Go loop indexes `vs[i+1]` unconditionally and cannot be reached with an
odd-length sequence; the leftover odd element, were there one, is dropped
here).  For every other parent kind each child gets the synthesized
name/expression of its switch.  Indices advance with `start` exactly as the
Go loop's `start + i/2` (maps) and `start + i` (otherwise). -/
def wrapApiVariables (env : FmtEnv) (vs : List ApiVariable) (kind : Kind)
    (start : Nat) (expr : Str) (customFormatters : Bool) :
    List (Option Variable) :=
  if kind = .map then
    match vs with
    | key :: value :: rest =>
        let keyname := mapKeyName key
        if keyname ≠ [] then
          some (wrapApiVariable env (value.setName ((keyname.drop 1).dropLast))
              keyname [] customFormatters) :: none ::
            wrapApiVariables env rest .map (start + 1) expr customFormatters
        else
          some (wrapApiVariable env key
              ('[' :: (natStr start ++ str " key]")) [] customFormatters) ::
          some (wrapApiVariable env value
              ('[' :: (natStr start ++ str " value]")) [] customFormatters) ::
            wrapApiVariables env rest .map (start + 1) expr customFormatters
    | _ => []
  else
    match vs with
    | [] => []
    | v :: rest =>
        some (wrapApiVariable env v (childNameFor kind v.name start)
            (childExprFor kind expr v.name start) customFormatters) ::
          wrapApiVariables env rest kind (start + 1) expr customFormatters
termination_by ApiVariable.sizeList vs * 2 + 1
decreasing_by
all_goals
  (try simp only [ApiVariable.sizeList, ApiVariable.size_setName])
  first
  | (have h1 := ApiVariable.size_pos key
     have h2 := ApiVariable.size_pos value
     omega)
  | (have h1 := ApiVariable.size_pos v
     omega)

end

/-- `api.LoadConfig`: the load-policy bundle passed to remote evaluation. -/
structure LoadConfig where
  followPointers : Bool
  maxVariableRecurse : Int
  maxStringLen : Int
  maxArrayValues : Int
  maxStructFields : Int
  deriving DecidableEq, Repr

/-- `LongLoadConfig` of `commands.go`. -/
def LongLoadConfig : LoadConfig := ⟨true, 1, 64, 16, -1⟩

/-- `LongArrayLoadConfig` of `commands.go`, the "long" policy used by the
array/slice and map follow-up loads. -/
def LongArrayLoadConfig : LoadConfig := ⟨true, 1, 64, 64, -1⟩

/-- The configuration fields read by `getVariableLoadConfig`. -/
structure Conf where
  maxArrayValues : Int
  maxStringLen : Int

/-- `getVariableLoadConfig` of `commands.go`: the default (non-"long")
policy, `LongLoadConfig` with configured caps substituted when positive. -/
def getVariableLoadConfig (conf : Conf) : LoadConfig :=
  let cfg := LongLoadConfig
  let cfg := if conf.maxArrayValues > 0 then
      { cfg with maxArrayValues := conf.maxArrayValues } else cfg
  if conf.maxStringLen > 0 then
      { cfg with maxStringLen := conf.maxStringLen } else cfg

/-- The scoped re-evaluation expression built by `loadMoreMap`:
`fmt.Sprintf("(*(*%q)(%#x))[%d:]", v.Type, v.Addr, len(v.Children)/2)`. -/
def mapLoadExpr (v : Variable) : Str :=
  str "(*(*" ++ goQuoteStr v.base.typ ++ str ")(" ++ hexStr v.base.addr ++
    str "))[" ++ natStr (v.children.length / 2) ++ str ":]"

/-- The scoped re-evaluation expression built by `loadMoreArrayOrSlice`:
`fmt.Sprintf("(*(*%q)(%#x))[%d:]", v.Type, v.Addr, len(v.Children))`. -/
def arrayLoadExpr (v : Variable) : Str :=
  str "(*(*" ++ goQuoteStr v.base.typ ++ str ")(" ++ hexStr v.base.addr ++
    str "))[" ++ natStr v.children.length ++ str ":]"

/-- The re-evaluation expression built by `loadMoreStruct`:
`fmt.Sprintf("*(*%q)(%#x)", v.Type, v.Addr)`. -/
def structLoadExpr (v : Variable) : Str :=
  str "*(*" ++ goQuoteStr v.base.typ ++ str ")(" ++ hexStr v.base.addr ++ str ")"

/-- The diagnostic line `loadMoreMap`/`loadMoreArrayOrSlice` write to the
scrollback side channel when the follow-up evaluation fails:
`"Error loading array contents %s: %v\n"`. -/
def loadErrLine (expr err : Str) : Str :=
  str "Error loading array contents " ++ expr ++ str ": " ++ err ++ ['\n']

/-- What `loadMoreMap`'s background task does with the remote result: on
error, emit one diagnostic line and freeze `v.Len` to the loaded pair count
(`len(v.Children)/2`); on success, append the newly wrapped pairs, the map
pairing restarting at `start = len(v.Children)`.  Returns the updated node
and the diagnostic lines emitted. -/
def loadMoreMapMerge (env : FmtEnv) (v : Variable)
    (res : Except Str ApiVariable) : Variable × List Str :=
  match res with
  | .error err =>
      (v.setLen ((v.children.length : Int) / 2), [loadErrLine (mapLoadExpr v) err])
  | .ok lv =>
      (v.setChildren (v.children ++
        wrapApiVariables env lv.children .map v.children.length v.expression true),
       [])

/-- What `loadMoreArrayOrSlice`'s background task does with the remote
result: on error, emit one diagnostic line and freeze `v.Len` to
`len(v.Children)`; on success, append the newly wrapped elements with index
synthesis continuing from `len(v.Children)`. -/
def loadMoreArrayOrSliceMerge (env : FmtEnv) (v : Variable)
    (res : Except Str ApiVariable) : Variable × List Str :=
  match res with
  | .error err =>
      (v.setLen (v.children.length : Int), [loadErrLine (arrayLoadExpr v) err])
  | .ok lv =>
      (v.setChildren (v.children ++
        wrapApiVariables env lv.children v.kind v.children.length v.expression true),
       [])

/-- What `loadMoreStruct`'s background task does with the remote result: on
error, mark the node unreadable with the error text; on success, overwrite
the node wholesale with the re-wrapped value (`*v = *wrapApiVariable(...)`)
after copying the old `Name` into the fresh snapshot, then restore the
saved `Varname` and `DisplayName`. -/
def loadMoreStructMerge (env : FmtEnv) (v : Variable)
    (res : Except Str ApiVariable) : Variable :=
  match res with
  | .error err => v.setUnreadable err
  | .ok lv =>
      let lv := lv.setName v.base.name
      ((wrapApiVariable env lv lv.name v.expression true).setVarname
        v.varname).setDisplayName v.displayName

/-- One remote `client.EvalVariable` call issued by a background load. -/
structure EvalRequest where
  expr : Str
  cfg : LoadConfig
  deriving DecidableEq, Repr

/-- The process-wide coordinator state shared by all panels: the
`additionalLoadRunning` in-flight flag and the ordered log of remote
evaluation calls issued by accepted background loads.  Each of the
request/complete operations below is one atomic step of the scheduling
model; an accepted request spawns exactly one background task, which
performs exactly one remote evaluation call (recorded here at acceptance)
and, on completion, applies its merge and clears the flag under
`additionalLoadMu`. -/
structure LoadState where
  additionalLoadRunning : Bool
  calls : List EvalRequest
  deriving DecidableEq, Repr

/-- The request step of `loadMoreMap`: dropped outright unless
`additionalLoadRunning` is unset; otherwise sets the flag and issues the
scoped map tail evaluation under the "long" array policy. -/
def loadMoreMap (s : LoadState) (v : Variable) : LoadState :=
  if !s.additionalLoadRunning then
    { additionalLoadRunning := true,
      calls := s.calls ++ [⟨mapLoadExpr v, LongArrayLoadConfig⟩] }
  else s

/-- The request step of `loadMoreArrayOrSlice`: dropped outright unless
`additionalLoadRunning` is unset; otherwise sets the flag and issues the
scoped tail evaluation under the "long" array policy. -/
def loadMoreArrayOrSlice (s : LoadState) (v : Variable) : LoadState :=
  if !s.additionalLoadRunning then
    { additionalLoadRunning := true,
      calls := s.calls ++ [⟨arrayLoadExpr v, LongArrayLoadConfig⟩] }
  else s

/-- The request step of `loadMoreStruct`: dropped outright unless
`additionalLoadRunning` is unset; otherwise sets the flag and re-evaluates
the whole value at its address under the default (not "long") policy. -/
def loadMoreStruct (conf : Conf) (s : LoadState) (v : Variable) : LoadState :=
  if !s.additionalLoadRunning then
    { additionalLoadRunning := true,
      calls := s.calls ++ [⟨structLoadExpr v, getVariableLoadConfig conf⟩] }
  else s

/-- The completion step shared by the three background tasks: after the
merge is applied, `additionalLoadRunning` is cleared under
`additionalLoadMu` — the only transition that ever clears the flag. -/
def completeAdditionalLoad (s : LoadState) : LoadState :=
  { s with additionalLoadRunning := false }

theorem wrapApiVariable_def (env : FmtEnv) (v : ApiVariable) (name expr : Str)
    (cf : Bool) :
    wrapApiVariable env v name expr cf =
      .mk v (wrapValue env v expr cf) expr (if name ≠ [] then name else v.typ)
        (env.shortenType v.typ) (if name ≠ [] then name else v.typ)
        (interfaceCollapse v.kind
          (wrapApiVariables env v.children v.kind 0 expr cf)) := by
  rw [wrapApiVariable]

@[simp] theorem wrapApiVariable_base (env : FmtEnv) (v : ApiVariable)
    (name expr : Str) (cf : Bool) :
    (wrapApiVariable env v name expr cf).base = v := by
  rw [wrapApiVariable_def]; rfl

@[simp] theorem wrapApiVariable_value (env : FmtEnv) (v : ApiVariable)
    (name expr : Str) (cf : Bool) :
    (wrapApiVariable env v name expr cf).value = wrapValue env v expr cf := by
  rw [wrapApiVariable_def]; rfl

@[simp] theorem wrapApiVariable_expression (env : FmtEnv) (v : ApiVariable)
    (name expr : Str) (cf : Bool) :
    (wrapApiVariable env v name expr cf).expression = expr := by
  rw [wrapApiVariable_def]; rfl

@[simp] theorem wrapApiVariable_displayName (env : FmtEnv) (v : ApiVariable)
    (name expr : Str) (cf : Bool) :
    (wrapApiVariable env v name expr cf).displayName =
      (if name ≠ [] then name else v.typ) := by
  rw [wrapApiVariable_def]; rfl

@[simp] theorem wrapApiVariable_varname (env : FmtEnv) (v : ApiVariable)
    (name expr : Str) (cf : Bool) :
    (wrapApiVariable env v name expr cf).varname =
      (if name ≠ [] then name else v.typ) := by
  rw [wrapApiVariable_def]; rfl

@[simp] theorem wrapApiVariable_children (env : FmtEnv) (v : ApiVariable)
    (name expr : Str) (cf : Bool) :
    (wrapApiVariable env v name expr cf).children =
      interfaceCollapse v.kind
        (wrapApiVariables env v.children v.kind 0 expr cf) := by
  rw [wrapApiVariable_def]; rfl

theorem wrapApiVariables_nil (env : FmtEnv) (kind : Kind) (start : Nat)
    (expr : Str) (cf : Bool) :
    wrapApiVariables env [] kind start expr cf = [] := by
  rw [wrapApiVariables.eq_def]
  split <;> rfl

theorem wrapApiVariables_cons (env : FmtEnv) (v : ApiVariable)
    (rest : List ApiVariable) (kind : Kind) (start : Nat) (expr : Str)
    (cf : Bool) (h : kind ≠ .map) :
    wrapApiVariables env (v :: rest) kind start expr cf =
      some (wrapApiVariable env v (childNameFor kind v.name start)
          (childExprFor kind expr v.name start) cf) ::
        wrapApiVariables env rest kind (start + 1) expr cf := by
  rw [wrapApiVariables.eq_def, if_neg h]

theorem wrapApiVariables_map_fold (env : FmtEnv) (key value : ApiVariable)
    (rest : List ApiVariable) (start : Nat) (expr : Str) (cf : Bool)
    (h : mapKeyName key ≠ []) :
    wrapApiVariables env (key :: value :: rest) .map start expr cf =
      some (wrapApiVariable env
          (value.setName (((mapKeyName key).drop 1).dropLast))
          (mapKeyName key) [] cf) :: none ::
        wrapApiVariables env rest .map (start + 1) expr cf := by
  rw [wrapApiVariables.eq_def, if_pos rfl]
  simp only [if_pos h]

theorem wrapApiVariables_map_nofold (env : FmtEnv) (key value : ApiVariable)
    (rest : List ApiVariable) (start : Nat) (expr : Str) (cf : Bool)
    (h : mapKeyName key = []) :
    wrapApiVariables env (key :: value :: rest) .map start expr cf =
      some (wrapApiVariable env key
          ('[' :: (natStr start ++ str " key]")) [] cf) ::
      some (wrapApiVariable env value
          ('[' :: (natStr start ++ str " value]")) [] cf) ::
        wrapApiVariables env rest .map (start + 1) expr cf := by
  rw [wrapApiVariables.eq_def, if_pos rfl]
  simp only [h, ne_eq, not_true_eq_false, if_false]

@[simp] theorem ApiVariable.name_setName (v : ApiVariable) (x : Str) :
    (ApiVariable.setName v x).name = x := by
  cases v; rfl

@[simp] theorem ApiVariable.typ_setName (v : ApiVariable) (x : Str) :
    (ApiVariable.setName v x).typ = v.typ := by
  cases v; rfl

@[simp] theorem ApiVariable.kind_setName (v : ApiVariable) (x : Str) :
    (ApiVariable.setName v x).kind = v.kind := by
  cases v; rfl

@[simp] theorem ApiVariable.value_setName (v : ApiVariable) (x : Str) :
    (ApiVariable.setName v x).value = v.value := by
  cases v; rfl

@[simp] theorem ApiVariable.addr_setName (v : ApiVariable) (x : Str) :
    (ApiVariable.setName v x).addr = v.addr := by
  cases v; rfl

@[simp] theorem ApiVariable.len_setName (v : ApiVariable) (x : Str) :
    (ApiVariable.setName v x).len = v.len := by
  cases v; rfl

@[simp] theorem ApiVariable.onlyAddr_setName (v : ApiVariable) (x : Str) :
    (ApiVariable.setName v x).onlyAddr = v.onlyAddr := by
  cases v; rfl

@[simp] theorem ApiVariable.unreadable_setName (v : ApiVariable) (x : Str) :
    (ApiVariable.setName v x).unreadable = v.unreadable := by
  cases v; rfl

@[simp] theorem ApiVariable.children_setName (v : ApiVariable) (x : Str) :
    (ApiVariable.setName v x).children = v.children := by
  cases v; rfl

@[simp] theorem ApiVariable.name_setLen (v : ApiVariable) (x : Int) :
    (ApiVariable.setLen v x).name = v.name := by
  cases v; rfl

@[simp] theorem ApiVariable.typ_setLen (v : ApiVariable) (x : Int) :
    (ApiVariable.setLen v x).typ = v.typ := by
  cases v; rfl

@[simp] theorem ApiVariable.kind_setLen (v : ApiVariable) (x : Int) :
    (ApiVariable.setLen v x).kind = v.kind := by
  cases v; rfl

@[simp] theorem ApiVariable.value_setLen (v : ApiVariable) (x : Int) :
    (ApiVariable.setLen v x).value = v.value := by
  cases v; rfl

@[simp] theorem ApiVariable.addr_setLen (v : ApiVariable) (x : Int) :
    (ApiVariable.setLen v x).addr = v.addr := by
  cases v; rfl

@[simp] theorem ApiVariable.len_setLen (v : ApiVariable) (x : Int) :
    (ApiVariable.setLen v x).len = x := by
  cases v; rfl

@[simp] theorem ApiVariable.onlyAddr_setLen (v : ApiVariable) (x : Int) :
    (ApiVariable.setLen v x).onlyAddr = v.onlyAddr := by
  cases v; rfl

@[simp] theorem ApiVariable.unreadable_setLen (v : ApiVariable) (x : Int) :
    (ApiVariable.setLen v x).unreadable = v.unreadable := by
  cases v; rfl

@[simp] theorem ApiVariable.children_setLen (v : ApiVariable) (x : Int) :
    (ApiVariable.setLen v x).children = v.children := by
  cases v; rfl

@[simp] theorem ApiVariable.name_setUnreadable (v : ApiVariable) (x : Str) :
    (ApiVariable.setUnreadable v x).name = v.name := by
  cases v; rfl

@[simp] theorem ApiVariable.typ_setUnreadable (v : ApiVariable) (x : Str) :
    (ApiVariable.setUnreadable v x).typ = v.typ := by
  cases v; rfl

@[simp] theorem ApiVariable.kind_setUnreadable (v : ApiVariable) (x : Str) :
    (ApiVariable.setUnreadable v x).kind = v.kind := by
  cases v; rfl

@[simp] theorem ApiVariable.value_setUnreadable (v : ApiVariable) (x : Str) :
    (ApiVariable.setUnreadable v x).value = v.value := by
  cases v; rfl

@[simp] theorem ApiVariable.addr_setUnreadable (v : ApiVariable) (x : Str) :
    (ApiVariable.setUnreadable v x).addr = v.addr := by
  cases v; rfl

@[simp] theorem ApiVariable.len_setUnreadable (v : ApiVariable) (x : Str) :
    (ApiVariable.setUnreadable v x).len = v.len := by
  cases v; rfl

@[simp] theorem ApiVariable.onlyAddr_setUnreadable (v : ApiVariable) (x : Str) :
    (ApiVariable.setUnreadable v x).onlyAddr = v.onlyAddr := by
  cases v; rfl

@[simp] theorem ApiVariable.unreadable_setUnreadable (v : ApiVariable) (x : Str) :
    (ApiVariable.setUnreadable v x).unreadable = x := by
  cases v; rfl

@[simp] theorem ApiVariable.children_setUnreadable (v : ApiVariable) (x : Str) :
    (ApiVariable.setUnreadable v x).children = v.children := by
  cases v; rfl

@[simp] theorem Variable.base_setDisplayName (v : Variable) (x : Str) :
    (Variable.setDisplayName v x).base = v.base := by
  cases v; rfl

@[simp] theorem Variable.value_setDisplayName (v : Variable) (x : Str) :
    (Variable.setDisplayName v x).value = v.value := by
  cases v; rfl

@[simp] theorem Variable.expression_setDisplayName (v : Variable) (x : Str) :
    (Variable.setDisplayName v x).expression = v.expression := by
  cases v; rfl

@[simp] theorem Variable.displayName_setDisplayName (v : Variable) (x : Str) :
    (Variable.setDisplayName v x).displayName = x := by
  cases v; rfl

@[simp] theorem Variable.shortType_setDisplayName (v : Variable) (x : Str) :
    (Variable.setDisplayName v x).shortType = v.shortType := by
  cases v; rfl

@[simp] theorem Variable.varname_setDisplayName (v : Variable) (x : Str) :
    (Variable.setDisplayName v x).varname = v.varname := by
  cases v; rfl

@[simp] theorem Variable.children_setDisplayName (v : Variable) (x : Str) :
    (Variable.setDisplayName v x).children = v.children := by
  cases v; rfl

@[simp] theorem Variable.base_setVarname (v : Variable) (x : Str) :
    (Variable.setVarname v x).base = v.base := by
  cases v; rfl

@[simp] theorem Variable.value_setVarname (v : Variable) (x : Str) :
    (Variable.setVarname v x).value = v.value := by
  cases v; rfl

@[simp] theorem Variable.expression_setVarname (v : Variable) (x : Str) :
    (Variable.setVarname v x).expression = v.expression := by
  cases v; rfl

@[simp] theorem Variable.displayName_setVarname (v : Variable) (x : Str) :
    (Variable.setVarname v x).displayName = v.displayName := by
  cases v; rfl

@[simp] theorem Variable.shortType_setVarname (v : Variable) (x : Str) :
    (Variable.setVarname v x).shortType = v.shortType := by
  cases v; rfl

@[simp] theorem Variable.varname_setVarname (v : Variable) (x : Str) :
    (Variable.setVarname v x).varname = x := by
  cases v; rfl

@[simp] theorem Variable.children_setVarname (v : Variable) (x : Str) :
    (Variable.setVarname v x).children = v.children := by
  cases v; rfl

@[simp] theorem Variable.base_setChildren (v : Variable) (x : List (Option Variable)) :
    (Variable.setChildren v x).base = v.base := by
  cases v; rfl

@[simp] theorem Variable.value_setChildren (v : Variable) (x : List (Option Variable)) :
    (Variable.setChildren v x).value = v.value := by
  cases v; rfl

@[simp] theorem Variable.expression_setChildren (v : Variable) (x : List (Option Variable)) :
    (Variable.setChildren v x).expression = v.expression := by
  cases v; rfl

@[simp] theorem Variable.displayName_setChildren (v : Variable) (x : List (Option Variable)) :
    (Variable.setChildren v x).displayName = v.displayName := by
  cases v; rfl

@[simp] theorem Variable.shortType_setChildren (v : Variable) (x : List (Option Variable)) :
    (Variable.setChildren v x).shortType = v.shortType := by
  cases v; rfl

@[simp] theorem Variable.varname_setChildren (v : Variable) (x : List (Option Variable)) :
    (Variable.setChildren v x).varname = v.varname := by
  cases v; rfl

@[simp] theorem Variable.children_setChildren (v : Variable) (x : List (Option Variable)) :
    (Variable.setChildren v x).children = x := by
  cases v; rfl

@[simp] theorem Variable.base_setLen (v : Variable) (x : Int) :
    (Variable.setLen v x).base = v.base.setLen x := by
  cases v; rfl

@[simp] theorem Variable.shownValue_setLen (v : Variable) (x : Int) :
    (Variable.setLen v x).value = v.value := by
  cases v; rfl

@[simp] theorem Variable.expression_setLen (v : Variable) (x : Int) :
    (Variable.setLen v x).expression = v.expression := by
  cases v; rfl

@[simp] theorem Variable.displayName_setLen (v : Variable) (x : Int) :
    (Variable.setLen v x).displayName = v.displayName := by
  cases v; rfl

@[simp] theorem Variable.shortType_setLen (v : Variable) (x : Int) :
    (Variable.setLen v x).shortType = v.shortType := by
  cases v; rfl

@[simp] theorem Variable.varname_setLen (v : Variable) (x : Int) :
    (Variable.setLen v x).varname = v.varname := by
  cases v; rfl

@[simp] theorem Variable.childList_setLen (v : Variable) (x : Int) :
    (Variable.setLen v x).children = v.children := by
  cases v; rfl

@[simp] theorem Variable.base_setUnreadable (v : Variable) (x : Str) :
    (Variable.setUnreadable v x).base = v.base.setUnreadable x := by
  cases v; rfl

@[simp] theorem Variable.shownValue_setUnreadable (v : Variable) (x : Str) :
    (Variable.setUnreadable v x).value = v.value := by
  cases v; rfl

@[simp] theorem Variable.expression_setUnreadable (v : Variable) (x : Str) :
    (Variable.setUnreadable v x).expression = v.expression := by
  cases v; rfl

@[simp] theorem Variable.displayName_setUnreadable (v : Variable) (x : Str) :
    (Variable.setUnreadable v x).displayName = v.displayName := by
  cases v; rfl

@[simp] theorem Variable.shortType_setUnreadable (v : Variable) (x : Str) :
    (Variable.setUnreadable v x).shortType = v.shortType := by
  cases v; rfl

@[simp] theorem Variable.varname_setUnreadable (v : Variable) (x : Str) :
    (Variable.setUnreadable v x).varname = v.varname := by
  cases v; rfl

@[simp] theorem Variable.childList_setUnreadable (v : Variable) (x : Str) :
    (Variable.setUnreadable v x).children = v.children := by
  cases v; rfl

@[simp] theorem Variable.kind_setChildren (v : Variable) (x : List (Option Variable)) :
    (Variable.setChildren v x).kind = v.kind := by
  cases v; rfl

/-- C5: at most one background load is in flight at any time, across all
nodes in all panels.  A call to `loadMoreMap`, `loadMoreArrayOrSlice` or
`loadMoreStruct` made while the process-wide `additionalLoadRunning` flag
is set is silently dropped: the state — including the log of remote
evaluation calls — is completely unchanged, so nothing is queued and no
remote evaluation is issued.  No request step ever clears the flag (so it
is cleared only by the completion step, which always clears it), and two
back-to-back requests from an idle state issue exactly one remote
evaluation call: the call of the first request. -/
theorem C5_single_flight (conf : Conf) (s : LoadState) (v w : Variable) :
    (s.additionalLoadRunning = true →
      loadMoreMap s v = s ∧ loadMoreArrayOrSlice s v = s ∧
        loadMoreStruct conf s v = s) ∧
    ((loadMoreMap s v).additionalLoadRunning = false →
      s.additionalLoadRunning = false) ∧
    ((loadMoreArrayOrSlice s v).additionalLoadRunning = false →
      s.additionalLoadRunning = false) ∧
    ((loadMoreStruct conf s v).additionalLoadRunning = false →
      s.additionalLoadRunning = false) ∧
    (completeAdditionalLoad s).additionalLoadRunning = false ∧
    (s.additionalLoadRunning = false →
      (loadMoreArrayOrSlice (loadMoreMap s v) w).calls =
        s.calls ++ [⟨mapLoadExpr v, LongArrayLoadConfig⟩]) := by
  cases s with
  | mk running calls =>
      cases running <;>
        simp [loadMoreMap, loadMoreArrayOrSlice, loadMoreStruct,
          completeAdditionalLoad]

/-- C5 witness: a request arriving while a load is in flight is dropped
with no state change, and two requests from idle issue one call. -/
theorem C5_single_flight_witness :
    (loadMoreMap ⟨true, []⟩ (.mk (.mk [] [] .map [] 0 0 false [] []) [] [] [] [] [] []) =
      ⟨true, []⟩) ∧
    (loadMoreArrayOrSlice
        (loadMoreMap ⟨false, []⟩
          (.mk (.mk [] [] .map [] 0 0 false [] []) [] [] [] [] [] []))
        (.mk (.mk [] [] .slice [] 0 0 false [] []) [] [] [] [] [] [])).calls =
      [] ++ [⟨mapLoadExpr (.mk (.mk [] [] .map [] 0 0 false [] []) [] [] [] [] [] []),
        LongArrayLoadConfig⟩] :=
  ⟨((C5_single_flight ⟨0, 0⟩ ⟨true, []⟩
      (.mk (.mk [] [] .map [] 0 0 false [] []) [] [] [] [] [] [])
      (.mk (.mk [] [] .slice [] 0 0 false [] []) [] [] [] [] [] [])).1 rfl).1,
   ((C5_single_flight ⟨0, 0⟩ ⟨false, []⟩
      (.mk (.mk [] [] .map [] 0 0 false [] []) [] [] [] [] [] [])
      (.mk (.mk [] [] .slice [] 0 0 false [] []) [] [] [] [] [] [])).2.2.2.2.2 rfl)⟩

/-- C6: when the re-evaluation issued by `loadMoreStruct` succeeds, the
node's raw fields and children are overwritten with those of the freshly
wrapped value (the fresh snapshot inheriting the old raw `Name`), while
`DisplayName` and `Varname` (the unique id) keep their prior values; when
it fails, the node keeps all fields unchanged except that the embedded
raw `Unreadable` field is set to the error text.  (Go overwrites through
the node pointer, `*v = *wrapApiVariable(...)`, so the same node object is
updated in place; the functional model states the resulting field values.) -/
theorem C6_loadMoreStruct_merge (env : FmtEnv) (v : Variable)
    (lv : ApiVariable) (err : Str) :
    (loadMoreStructMerge env v (.ok lv) =
        ((wrapApiVariable env (lv.setName v.base.name) v.base.name
            v.expression true).setVarname v.varname).setDisplayName
          v.displayName ∧
      (loadMoreStructMerge env v (.ok lv)).displayName = v.displayName ∧
      (loadMoreStructMerge env v (.ok lv)).varname = v.varname ∧
      (loadMoreStructMerge env v (.ok lv)).base = lv.setName v.base.name ∧
      (loadMoreStructMerge env v (.ok lv)).children =
        (wrapApiVariable env (lv.setName v.base.name) v.base.name
          v.expression true).children ∧
      (loadMoreStructMerge env v (.ok lv)).value =
        (wrapApiVariable env (lv.setName v.base.name) v.base.name
          v.expression true).value) ∧
    (loadMoreStructMerge env v (.error err) = v.setUnreadable err ∧
      (loadMoreStructMerge env v (.error err)).base =
        v.base.setUnreadable err ∧
      (loadMoreStructMerge env v (.error err)).base.unreadable = err ∧
      (loadMoreStructMerge env v (.error err)).children = v.children ∧
      (loadMoreStructMerge env v (.error err)).displayName = v.displayName ∧
      (loadMoreStructMerge env v (.error err)).varname = v.varname ∧
      (loadMoreStructMerge env v (.error err)).value = v.value) := by
  simp [loadMoreStructMerge, ApiVariable.name_setName]

/-- C7: when the scoped re-evaluation issued by `loadMoreArrayOrSlice`
fails, the node's declared length is frozen to the count of
already-loaded children (so the renderer's "more" condition
`len(children) ≠ Len` no longer holds and no further fetch is offered),
exactly one diagnostic line is emitted to the scrollback side channel,
and the node's children are unchanged; the merge is a total function, so
no error escapes to the caller.  On success the freshly wrapped children
are appended, with name/expression synthesis continuing from the existing
offset `len(children)`, and no diagnostic line is emitted. -/
theorem C7_loadMoreArrayOrSlice_failure (env : FmtEnv) (v : Variable)
    (lv : ApiVariable) (err : Str) :
    ((loadMoreArrayOrSliceMerge env v (.error err)).1.children = v.children ∧
      (loadMoreArrayOrSliceMerge env v (.error err)).1.base.len =
        (v.children.length : Int) ∧
      ((loadMoreArrayOrSliceMerge env v (.error err)).1.children.length : Int) =
        (loadMoreArrayOrSliceMerge env v (.error err)).1.base.len ∧
      (loadMoreArrayOrSliceMerge env v (.error err)).1 =
        v.setLen (v.children.length : Int) ∧
      (loadMoreArrayOrSliceMerge env v (.error err)).2 =
        [loadErrLine (arrayLoadExpr v) err] ∧
      (loadMoreArrayOrSliceMerge env v (.error err)).2.length = 1) ∧
    ((loadMoreArrayOrSliceMerge env v (.ok lv)).1.children =
        v.children ++
          wrapApiVariables env lv.children v.kind v.children.length
            v.expression true ∧
      (loadMoreArrayOrSliceMerge env v (.ok lv)).2 = []) := by
  simp [loadMoreArrayOrSliceMerge]

/-- The kinds admitted by the `switch key.Kind` of the map branch of
`wrapApiVariables`: string and the numeric kinds (signed/unsigned integers,
`uintptr`, floats, complexes). -/
def foldableKeyKind (k : Kind) : Bool :=
  match k with
  | .string | .int | .int8 | .int16 | .int32 | .int64
  | .uint | .uint8 | .uint16 | .uint32 | .uint64 | .uintptr
  | .complex64 | .complex128 | .float32 | .float64 => true
  | _ => false

theorem mapKeyName_ne_nil_iff (key : ApiVariable) :
    mapKeyName key ≠ [] ↔
      key.children.length = 0 ∧ key.value.length < minInlineKeyValueLen ∧
        foldableKeyKind key.kind = true := by
  unfold mapKeyName
  split
  · rename_i h
    cases hk : key.kind <;> simp_all [foldableKeyKind]
  · rename_i h
    cases hk : key.kind <;> simp_all [foldableKeyKind]

theorem mapKeyName_of_ne_nil (key : ApiVariable) (h : mapKeyName key ≠ []) :
    (key.kind = .string →
      mapKeyName key = '[' :: (goQuoteStr key.value ++ [']'])) ∧
    (key.kind ≠ .string → mapKeyName key = '[' :: (key.value ++ [']'])) := by
  unfold mapKeyName at *
  split at h
  · cases hk : key.kind <;> simp_all
  · simp at h

/-- C2: a map pair whose key is foldable (non-empty `keyname`) contributes
exactly one display node, named by the bracketed key value — quoted when
the key kind is string, the bare value string otherwise — followed only by
the `nil` alignment placeholder; a non-foldable pair at pair index `i`
(`start` here, as indices advance one per pair) contributes exactly the two
display nodes named `[i key]` and `[i value]`.  All of these children carry
the empty expression. -/
theorem C2_map_pair_wrapping (env : FmtEnv) (key value : ApiVariable)
    (rest : List ApiVariable) (start : Nat) (expr : Str) (cf : Bool) :
    (mapKeyName key ≠ [] →
      wrapApiVariables env (key :: value :: rest) .map start expr cf =
        some (wrapApiVariable env
            (value.setName (((mapKeyName key).drop 1).dropLast))
            (mapKeyName key) [] cf) :: none ::
          wrapApiVariables env rest .map (start + 1) expr cf ∧
      (wrapApiVariable env (value.setName (((mapKeyName key).drop 1).dropLast))
          (mapKeyName key) [] cf).displayName = mapKeyName key ∧
      (key.kind = .string →
        mapKeyName key = '[' :: (goQuoteStr key.value ++ [']'])) ∧
      (key.kind ≠ .string →
        mapKeyName key = '[' :: (key.value ++ [']'])) ∧
      (wrapApiVariable env (value.setName (((mapKeyName key).drop 1).dropLast))
          (mapKeyName key) [] cf).expression = []) ∧
    (mapKeyName key = [] →
      wrapApiVariables env (key :: value :: rest) .map start expr cf =
        some (wrapApiVariable env key
            ('[' :: (natStr start ++ str " key]")) [] cf) ::
        some (wrapApiVariable env value
            ('[' :: (natStr start ++ str " value]")) [] cf) ::
          wrapApiVariables env rest .map (start + 1) expr cf ∧
      (wrapApiVariable env key ('[' :: (natStr start ++ str " key]")) []
          cf).displayName = '[' :: (natStr start ++ str " key]") ∧
      (wrapApiVariable env value ('[' :: (natStr start ++ str " value]")) []
          cf).displayName = '[' :: (natStr start ++ str " value]") ∧
      (wrapApiVariable env key ('[' :: (natStr start ++ str " key]")) []
          cf).expression = [] ∧
      (wrapApiVariable env value ('[' :: (natStr start ++ str " value]")) []
          cf).expression = []) := by
  constructor
  · intro h
    refine ⟨wrapApiVariables_map_fold env key value rest start expr cf h, ?_,
      (mapKeyName_of_ne_nil key h).1, (mapKeyName_of_ne_nil key h).2, ?_⟩
    · rw [wrapApiVariable_displayName, if_pos h]
    · exact wrapApiVariable_expression ..
  · intro h
    exact ⟨wrapApiVariables_map_nofold env key value rest start expr cf h,
      by rw [wrapApiVariable_displayName, if_pos (by simp)],
      by rw [wrapApiVariable_displayName, if_pos (by simp)],
      wrapApiVariable_expression .., wrapApiVariable_expression ..⟩

/-- C2 witness: a foldable string key `"k"` folds to one node named
`["k"]` with empty expression, and a non-foldable (boolean) key yields the
`[0 key]`/`[0 value]` node pair. -/
theorem C2_map_pair_wrapping_witness :
    ((wrapApiVariable ⟨fun _ => none, fun _ => none, fun t => t⟩
        ((ApiVariable.mk [] (str "string") .string (str "x") 3 0 false
          [] []).setName
          ((mapKeyName (.mk [] (str "string") .string (str "k") 2 0 false
            [] [])).drop 1).dropLast)
        (mapKeyName (.mk [] (str "string") .string (str "k") 2 0 false [] []))
        [] false).displayName =
      mapKeyName (.mk [] (str "string") .string (str "k") 2 0 false [] []) ∧
      mapKeyName (.mk [] (str "string") .string (str "k") 2 0 false [] []) =
        str "[\"k\"]") ∧
    (wrapApiVariable ⟨fun _ => none, fun _ => none, fun t => t⟩
        (.mk [] (str "bool") .bool (str "true") 4 0 false [] [])
        ('[' :: (natStr 0 ++ str " key]")) [] false).displayName =
      str "[0 key]" := by
  refine ⟨⟨((C2_map_pair_wrapping ⟨fun _ => none, fun _ => none, fun t => t⟩
      (.mk [] (str "string") .string (str "k") 2 0 false [] [])
      (.mk [] (str "string") .string (str "x") 3 0 false [] [])
      [] 0 [] false).1 (by decide)).2.1, by decide⟩, ?_⟩
  have h := ((C2_map_pair_wrapping ⟨fun _ => none, fun _ => none, fun t => t⟩
      (.mk [] (str "bool") .bool (str "true") 4 0 false [] [])
      (.mk [] (str "string") .string (str "x") 3 0 false [] [])
      [] 0 [] false).2 (by decide)).2.1
  rw [h]
  decide

/-- C10: the map branch folds a key into its value's display name exactly
when the key has no children, its printed value is shorter than 20
characters, and its kind is string or numeric (signed/unsigned integer,
`uintptr`, float, or complex); a boolean key is never foldable and its
pair always wraps to the two-node `[i key]`/`[i value]` form. -/
theorem C10_fold_guard (env : FmtEnv) (key value : ApiVariable)
    (rest : List ApiVariable) (start : Nat) (expr : Str) (cf : Bool) :
    (mapKeyName key ≠ [] ↔
      key.children.length = 0 ∧ key.value.length < minInlineKeyValueLen ∧
        foldableKeyKind key.kind = true) ∧
    (key.kind = .bool →
      wrapApiVariables env (key :: value :: rest) .map start expr cf =
        some (wrapApiVariable env key
            ('[' :: (natStr start ++ str " key]")) [] cf) ::
        some (wrapApiVariable env value
            ('[' :: (natStr start ++ str " value]")) [] cf) ::
          wrapApiVariables env rest .map (start + 1) expr cf) := by
  refine ⟨mapKeyName_ne_nil_iff key, fun hb => ?_⟩
  refine wrapApiVariables_map_nofold env key value rest start expr cf ?_
  unfold mapKeyName
  split
  · rw [hb]
  · rfl

/-- C10 witness: a childless short boolean key is not foldable and its
pair wraps to the two-node form; a childless short integer key is
foldable. -/
theorem C10_fold_guard_witness :
    wrapApiVariables ⟨fun _ => none, fun _ => none, fun t => t⟩
        [.mk [] (str "bool") .bool (str "true") 4 0 false [] [],
         .mk [] (str "string") .string (str "x") 3 0 false [] []]
        .map 0 [] false =
      some (wrapApiVariable ⟨fun _ => none, fun _ => none, fun t => t⟩
          (.mk [] (str "bool") .bool (str "true") 4 0 false [] [])
          ('[' :: (natStr 0 ++ str " key]")) [] false) ::
      some (wrapApiVariable ⟨fun _ => none, fun _ => none, fun t => t⟩
          (.mk [] (str "string") .string (str "x") 3 0 false [] [])
          ('[' :: (natStr 0 ++ str " value]")) [] false) ::
        wrapApiVariables ⟨fun _ => none, fun _ => none, fun t => t⟩ []
          .map 1 [] false ∧
    mapKeyName (.mk [] (str "int") .int (str "7") 2 0 false [] []) ≠ [] := by
  refine ⟨(C10_fold_guard ⟨fun _ => none, fun _ => none, fun t => t⟩
      (.mk [] (str "bool") .bool (str "true") 4 0 false [] [])
      (.mk [] (str "string") .string (str "x") 3 0 false [] [])
      [] 0 [] false).2 rfl, ?_⟩
  exact (C10_fold_guard ⟨fun _ => none, fun _ => none, fun t => t⟩
      (.mk [] (str "int") .int (str "7") 2 0 false [] [])
      (.mk [] (str "string") .string (str "x") 3 0 false [] [])
      [] 0 [] false).1.mpr (by decide)

/-- The alignment discipline of map-kind children: the list is a
concatenation of two-slot pair segments, each either a collapsed pair — the
synthetic folded node in the key slot followed by the `nil` placeholder in
the value slot — or a plain wrapped key/value node pair. -/
inductive MapAligned : List (Option Variable) → Prop where
  | nil : MapAligned []
  | folded (a : Variable) (rest : List (Option Variable)) :
      MapAligned rest → MapAligned (some a :: none :: rest)
  | pair (a b : Variable) (rest : List (Option Variable)) :
      MapAligned rest → MapAligned (some a :: some b :: rest)

theorem MapAligned.append {l₁ l₂ : List (Option Variable)}
    (h₁ : MapAligned l₁) (h₂ : MapAligned l₂) : MapAligned (l₁ ++ l₂) := by
  induction h₁ with
  | nil => exact h₂
  | folded a rest _ ih => exact .folded a _ ih
  | pair a b rest _ ih => exact .pair a b _ ih

theorem MapAligned.even_length {l : List (Option Variable)}
    (h : MapAligned l) : l.length % 2 = 0 := by
  induction h with
  | nil => rfl
  | folded a rest _ ih => simp only [List.length_cons]; omega
  | pair a b rest _ ih => simp only [List.length_cons]; omega

theorem wrapApiVariables_map_aligned (env : FmtEnv) :
    ∀ (n : Nat) (vs : List ApiVariable) (start : Nat) (expr : Str) (cf : Bool),
      vs.length ≤ n → vs.length % 2 = 0 →
      MapAligned (wrapApiVariables env vs .map start expr cf) := by
  intro n
  induction n with
  | zero =>
      intro vs start expr cf hle _
      match vs with
      | [] => rw [wrapApiVariables_nil]; exact .nil
      | v :: rest => simp at hle
  | succ n ih =>
      intro vs start expr cf hle hev
      match vs with
      | [] => rw [wrapApiVariables_nil]; exact .nil
      | [x] => simp [Nat.mod_self] at hev
      | key :: value :: rest =>
          have hr : rest.length ≤ n := by
            simp only [List.length_cons] at hle
            omega
          have hre : rest.length % 2 = 0 := by
            simp only [List.length_cons] at hev
            omega
          by_cases h : mapKeyName key = []
          · rw [wrapApiVariables_map_nofold env key value rest start expr cf h]
            exact .pair _ _ _ (ih rest (start + 1) expr cf hr hre)
          · rw [wrapApiVariables_map_fold env key value rest start expr cf h]
            exact .folded _ _ (ih rest (start + 1) expr cf hr hre)

/-- Whether position `i` of a child list holds a `nil` placeholder. -/
def slotIsNil (l : List (Option Variable)) (i : Nat) : Bool :=
  match l.drop i with
  | none :: _ => true
  | _ => false

/-- C3 counterexample: the claim puts the `nil` placeholder of a collapsed
pair "in the key slot".  Wrapping the single foldable pair
(`int` key `7`, value `"x"`) puts the synthetic node first (the key slot,
index 0) and the `nil` placeholder second (the value slot, index 1):
`r = append(r, wrapApiVariable(value, ...)); r = append(r, nil)`. -/
theorem C3_placeholder_slot_counterexample :
    slotIsNil (wrapApiVariables ⟨fun _ => none, fun _ => none, fun t => t⟩
      [.mk [] (str "int") .int (str "7") 2 0 false [] [],
       .mk [] (str "string") .string (str "x") 3 0 false [] []]
      .map 0 [] false) 0 = false ∧
    slotIsNil (wrapApiVariables ⟨fun _ => none, fun _ => none, fun t => t⟩
      [.mk [] (str "int") .int (str "7") 2 0 false [] [],
       .mk [] (str "string") .string (str "x") 3 0 false [] []]
      .map 0 [] false) 1 = true := by
  rw [wrapApiVariables_map_fold ⟨fun _ => none, fun _ => none, fun t => t⟩
    (.mk [] (str "int") .int (str "7") 2 0 false [] [])
    (.mk [] (str "string") .string (str "x") 3 0 false [] [])
    [] 0 [] false (by decide)]
  exact ⟨rfl, rfl⟩

/-- C3 (amended): for every map-kind node, after initial wrapping of an
(even-length, alternating) pair sequence and after every `loadMoreMap`
merge, the children sequence satisfies the pair-alignment discipline — and
in particular has even length: consecutive (key, value) node pairs, except
that a collapsed pair consists of the synthetic folded node followed by a
`nil` placeholder in the value slot (not the key slot), preserving pair
alignment for later partial loads. -/
theorem C3_map_alignment (env : FmtEnv) (vs : List ApiVariable) (start : Nat)
    (expr : Str) (cf : Bool) (v : Variable) (lv : ApiVariable) (err : Str) :
    (vs.length % 2 = 0 → MapAligned (wrapApiVariables env vs .map start expr cf)) ∧
    (MapAligned v.children → lv.children.length % 2 = 0 →
      MapAligned (loadMoreMapMerge env v (.ok lv)).1.children) ∧
    (MapAligned v.children →
      MapAligned (loadMoreMapMerge env v (.error err)).1.children) ∧
    (∀ l : List (Option Variable), MapAligned l → l.length % 2 = 0) := by
  refine ⟨fun hev => wrapApiVariables_map_aligned env vs.length vs start expr cf
      le_rfl hev, fun hv hev => ?_, fun hv => ?_, fun l hl => hl.even_length⟩
  · simp only [loadMoreMapMerge, Variable.children_setChildren]
    exact hv.append (wrapApiVariables_map_aligned env lv.children.length
      lv.children v.children.length v.expression true le_rfl hev)
  · simpa [loadMoreMapMerge] using hv

/-- C3 witness: the alignment discipline holds concretely for the wrap of
one foldable pair followed by a `loadMoreMap` merge of one non-foldable
pair, and its length is even. -/
theorem C3_map_alignment_witness :
    MapAligned (loadMoreMapMerge ⟨fun _ => none, fun _ => none, fun t => t⟩
      (Variable.mk (.mk [] (str "map[int]string") .map [] 9 2 false [] [])
        [] [] [] [] []
        (wrapApiVariables ⟨fun _ => none, fun _ => none, fun t => t⟩
          [.mk [] (str "int") .int (str "7") 2 0 false [] [],
           .mk [] (str "string") .string (str "x") 3 0 false [] []]
          .map 0 [] false))
      (.ok (.mk [] (str "map[int]string") .map [] 9 2 false []
        [.mk [] (str "bool") .bool (str "true") 4 0 false [] [],
         .mk [] (str "string") .string (str "y") 5 0 false [] []]))).1.children := by
  have h := C3_map_alignment ⟨fun _ => none, fun _ => none, fun t => t⟩
    [ApiVariable.mk [] (str "int") .int (str "7") 2 0 false [] [],
     .mk [] (str "string") .string (str "x") 3 0 false [] []] 0 [] false
    (Variable.mk (.mk [] (str "map[int]string") .map [] 9 2 false [] [])
      [] [] [] [] []
      (wrapApiVariables ⟨fun _ => none, fun _ => none, fun t => t⟩
        [.mk [] (str "int") .int (str "7") 2 0 false [] [],
         .mk [] (str "string") .string (str "x") 3 0 false [] []]
        .map 0 [] false))
    (.mk [] (str "map[int]string") .map [] 9 2 false []
      [.mk [] (str "bool") .bool (str "true") 4 0 false [] [],
       .mk [] (str "string") .string (str "y") 5 0 false [] []]) []
  exact h.2.1 (h.1 (by decide)) (by decide)

theorem hasPtrWrapper_wrapped (E : Str) :
    ((str "(*(").isPrefixOf (str "(*(" ++ (E ++ str "))")) &&
      (str "))").isSuffixOf (str "(*(" ++ (E ++ str "))"))) = true := by
  rw [Bool.and_eq_true, List.isPrefixOf_iff_prefix, List.isSuffixOf_iff_suffix]
  refine ⟨List.prefix_append _ _, ?_⟩
  rw [show str "(*(" ++ (E ++ str "))") = (str "(*(" ++ E) ++ str "))" from by
    simp]
  exact List.suffix_append _ _

theorem stripPtrWrapper_of_wrapped (E : Str) :
    stripPtrWrapper (str "(*(" ++ (E ++ str "))")) = E := by
  unfold stripPtrWrapper
  rw [if_pos (hasPtrWrapper_wrapped E)]
  rw [show (str "(*(" ++ (E ++ str "))")).drop 3 = E ++ str "))" from
    List.drop_left (str "(*(") (E ++ str "))")]
  apply List.take_left'
  simp [str]

/-- C4: for a struct- or channel-kind parent with non-empty expression `E`
and a child field named `f`, the synthesized child expression is
`E + "." + f` when `E` does not carry an enclosing `(*(` … `))` wrapper,
and is the inner expression with that wrapper stripped followed by `"." + f`
when it does; consequently a pointer-then-struct chain yields `E + "." + f`
from the pointer's wrapped expression — never a double `(*(` … `))` wrap.
The last conjunct ties the rule to `wrapApiVariables`: each struct/chan
child node carries exactly this synthesized expression. -/
theorem C4_struct_field_expr (E f g : Str) (i j : Nat) (hE : E ≠ []) :
    (((str "(*(").isPrefixOf E && (str "))").isSuffixOf E) = false →
      childExprFor .struct E f i = E ++ '.' :: f ∧
      childExprFor .chan E f i = E ++ '.' :: f) ∧
    (∀ E₀ : Str, E = str "(*(" ++ (E₀ ++ str "))") →
      childExprFor .struct E f i = E₀ ++ '.' :: f ∧
      childExprFor .chan E f i = E₀ ++ '.' :: f) ∧
    childExprFor .struct (childExprFor .ptr E g j) f i = E ++ '.' :: f ∧
    (∀ (env : FmtEnv) (v : ApiVariable) (rest : List ApiVariable) (cf : Bool)
        (start : Nat) (kind : Kind), kind = .struct ∨ kind = .chan →
      wrapApiVariables env (v :: rest) kind start E cf =
        some (wrapApiVariable env v v.name (childExprFor kind E v.name start)
            cf) ::
          wrapApiVariables env rest kind (start + 1) E cf ∧
      (wrapApiVariable env v v.name (childExprFor kind E v.name start)
          cf).expression = childExprFor kind E v.name start) := by
  refine ⟨fun hguard => ?_, fun E₀ hWrap => ?_, ?_, fun env v rest cf start kind hk => ?_⟩
  · constructor <;>
      simp [childExprFor, hE, stripPtrWrapper, hguard]
  · subst hWrap
    constructor <;> simp [childExprFor, hE, stripPtrWrapper_of_wrapped]
  · have hp : childExprFor .ptr E g j = str "(*(" ++ (E ++ str "))") := by
      simp [childExprFor, hE]
    rw [hp]
    simp [childExprFor, stripPtrWrapper_of_wrapped]
    intro h
    exact absurd h (by decide)
  · have hnm : kind ≠ .map := by rcases hk with h | h <;> simp [h]
    have hname : childNameFor kind v.name start = v.name := by
      rcases hk with h | h <;> simp [h, childNameFor]
    constructor
    · rw [wrapApiVariables_cons env v rest kind start E cf hnm, hname]
    · exact wrapApiVariable_expression ..

/-- C4 witness: a field `f` of a struct reached through expression `a.b`
gets expression `a.b.f`; through a pointer-dereference wrapper `(*(p))` it
gets `p.f`, both directly and as the composite of the pointer rule with
the struct rule. -/
theorem C4_struct_field_expr_witness :
    childExprFor .struct (str "a.b") (str "f") 0 = str "a.b.f" ∧
    childExprFor .struct (str "(*(p))") (str "f") 0 = str "p.f" ∧
    childExprFor .struct (childExprFor .ptr (str "p") (str "x") 1)
      (str "f") 0 = str "p.f" := by
  refine ⟨?_, ?_, ?_⟩
  · exact (((C4_struct_field_expr (str "a.b") (str "f") (str "x") 0 1
      (by decide)).1 (by decide)).1).trans (by decide)
  · exact (((C4_struct_field_expr (str "(*(p))") (str "f") (str "x") 0 1
      (by decide)).2.1 (str "p") (by decide)).1).trans (by decide)
  · exact ((C4_struct_field_expr (str "p") (str "f") (str "x") 0 1
      (by decide)).2.2.1).trans (by decide)

/-- C9: a raw value of integer kind (the remote service reports sized
integers with the generic `Int`/`Uint` kinds) declared as type `uint8` or
`int32`, whose numeric value is in the printable-ASCII range and whose
address has no installed override, is annotated by `wrap` with its decoded
character: `v.Value ++ " " ++ %q(n)`. -/
theorem C9_printable_ascii (env : FmtEnv) (v : ApiVariable) (name expr : Str)
    (cf : Bool) (n : Int)
    (hover : env.varFormat v.addr = none)
    (hkind : v.kind = .int ∨ v.kind = .uint)
    (htyp : v.typ = str "uint8" ∨ v.typ = str "int32")
    (hn : goAtoi v.value = n) (h32 : 32 ≤ n) (h126 : n ≤ 126) :
    (wrapApiVariable env v name expr cf).value =
      v.value ++ ' ' :: goQuoteRuneNum n := by
  rw [wrapApiVariable_value]
  unfold wrapValue
  rw [hover]
  simp only [hn]
  rw [if_pos ⟨hkind, htyp⟩, if_pos ⟨h32, h126⟩]

/-- C9 witness: the value `65` on a `uint8` with no address override
renders as `65 'A'`. -/
theorem C9_printable_ascii_witness :
    (wrapApiVariable ⟨fun _ => none, fun _ => none, fun t => t⟩
        (.mk (str "c") (str "uint8") .uint (str "65") 1 0 false [] [])
        (str "c") (str "c") false).value = str "65 'A'" :=
  (C9_printable_ascii ⟨fun _ => none, fun _ => none, fun t => t⟩
    (.mk (str "c") (str "uint8") .uint (str "65") 1 0 false [] [])
    (str "c") (str "c") false 65 rfl (Or.inr rfl) (Or.inl rfl) (by decide)
    (by decide) (by decide)).trans (by decide)

/-- The formatting precedence exactly as the specification's rule list
states it (claim C1), with "first match wins": rule 2, the printable-ASCII
character annotation heuristic, matches a `uint8`/`int32` integer exactly
when its numeric value lies in the printable range, so a non-printable
value falls through to the custom-formatter and `time.Time` rules. -/
def specFormatValue (env : FmtEnv) (v : ApiVariable) (expr : Str)
    (allowCustomFormatters : Bool) : Str :=
  match env.varFormat v.addr with
  | some f => f (preNode v expr)
  | none =>
    if (v.kind = .int ∨ v.kind = .uint) ∧
        (v.typ = str "uint8" ∨ v.typ = str "int32") ∧
        32 ≤ goAtoi v.value ∧ goAtoi v.value ≤ 126 then
      v.value ++ ' ' :: goQuoteRuneNum (goAtoi v.value)
    else
      match env.customFormatters v.typ with
      | some f =>
          if allowCustomFormatters then f (preNode v expr)
          else if v.typ = str "time.Time" then formatTime v else v.value
      | none => if v.typ = str "time.Time" then formatTime v else v.value

/-- The formatting precedence as amended by the C1 correction: the
heuristic's guard is the kind/type test alone — any `uint8`/`int32` value
of integer kind is claimed by rule 2, which annotates it when printable
and otherwise shows the raw value string unchanged; custom formatters and
the `time.Time` decoder are consulted only for values not claimed by an
earlier rule. -/
def specFormatValueAmended (env : FmtEnv) (v : ApiVariable) (expr : Str)
    (allowCustomFormatters : Bool) : Str :=
  match env.varFormat v.addr with
  | some f => f (preNode v expr)
  | none =>
    if (v.kind = .int ∨ v.kind = .uint) ∧
        (v.typ = str "uint8" ∨ v.typ = str "int32") then
      if 32 ≤ goAtoi v.value ∧ goAtoi v.value ≤ 126 then
        v.value ++ ' ' :: goQuoteRuneNum (goAtoi v.value)
      else v.value
    else
      match env.customFormatters v.typ with
      | some f =>
          if allowCustomFormatters then f (preNode v expr)
          else if v.typ = str "time.Time" then formatTime v else v.value
      | none => if v.typ = str "time.Time" then formatTime v else v.value

/-- C1 counterexample: a `uint8` value `200` (not printable ASCII) with a
custom formatter registered for `uint8` and `allowCustomFormatters` set,
and no address override.  Under the claim's precedence list rule 2 does
not match (the value is outside the printable range) so rule 3 — the
custom formatter — should determine the shown value; the code instead
stops at the heuristic branch, whose guard tests only kind and type, and
shows the raw string, never consulting the custom formatter. -/
theorem C1_precedence_counterexample :
    (wrapApiVariable
        ⟨fun _ => none,
         fun t => if t = str "uint8" then some (fun _ => str "CUSTOM") else none,
         fun t => t⟩
        (.mk (str "c") (str "uint8") .int (str "200") 1 0 false [] [])
        (str "c") (str "c") true).value ≠
      specFormatValue
        ⟨fun _ => none,
         fun t => if t = str "uint8" then some (fun _ => str "CUSTOM") else none,
         fun t => t⟩
        (.mk (str "c") (str "uint8") .int (str "200") 1 0 false [] [])
        (str "c") true := by
  rw [wrapApiVariable_value]
  decide

/-- C1 (amended): for every raw value passed to `wrap`, exactly one
formatting rule determines the shown value, checked in this order:
(1) an address-keyed override for the node's memory address; (2) the
`uint8`/`int32` integer branch, annotating printable-ASCII values and
showing the raw string for the rest; (3) a custom formatter registered for
the declared type name, only when `allowCustomFormatters` is set; (4) the
`time.Time` decoder; (5) otherwise the raw value string unchanged.  In
particular, when the address has an installed override, the override alone
determines the formatted value: the result is the override's output
whatever custom-formatter table is installed. -/
theorem C1_precedence_amended (env : FmtEnv) (v : ApiVariable)
    (name expr : Str) (allow : Bool) :
    (wrapApiVariable env v name expr allow).value =
      specFormatValueAmended env v expr allow ∧
    (∀ f, env.varFormat v.addr = some f →
      (wrapApiVariable env v name expr allow).value = f (preNode v expr) ∧
      ∀ cfm' : Str → Option Formatter,
        (wrapApiVariable ⟨env.varFormat, cfm', env.shortenType⟩ v name expr
          allow).value = f (preNode v expr)) := by
  constructor
  · rw [wrapApiVariable_value]
    unfold wrapValue specFormatValueAmended
    rfl
  · intro f hf
    constructor
    · rw [wrapApiVariable_value]
      unfold wrapValue
      rw [hf]
    · intro cfm'
      rw [wrapApiVariable_value]
      unfold wrapValue
      simp only [FmtEnv.varFormat] at hf ⊢
      rw [hf]

/-- C1 witness: with a hex-style override installed for address 1 and a
custom formatter registered for the value's type, the override alone
determines the shown value. -/
theorem C1_precedence_amended_witness :
    (wrapApiVariable
        ⟨fun a => if a = 1 then some (fun _ => str "0xff") else none,
         fun t => if t = str "uint8" then some (fun _ => str "CUSTOM") else none,
         fun t => t⟩
        (.mk (str "c") (str "uint8") .uint (str "255") 1 0 false [] [])
        (str "c") (str "c") true).value = str "0xff" :=
  ((C1_precedence_amended
      ⟨fun a => if a = 1 then some (fun _ => str "0xff") else none,
       fun t => if t = str "uint8" then some (fun _ => str "CUSTOM") else none,
       fun t => t⟩
      (.mk (str "c") (str "uint8") .uint (str "255") 1 0 false [] [])
      (str "c") (str "c") true).2 (fun _ => str "0xff") rfl).1

theorem formatTime_of_fields (u wv ev : ApiVariable)
    (hw : fieldVariable u (str "wall") = some wv)
    (he : fieldVariable u (str "ext") = some ev) :
    formatTime u =
      if wv.unreadable ≠ [] ∨ ev.unreadable ≠ [] ∨ wv.value = [] ∨
          ev.value = [] then
        u.value
      else
        match goParseUint64 wv.value, goParseInt64 ev.value with
        | some wall, some ext =>
            if Nat.testBit wall 63 then
              let sec : Nat := wall * 2 % 2 ^ 64 / 2 ^ 31
              str "time.Time(" ++
                unixRFC3339 ((sec : Int) + unixTimestampOfWallEpoch) ++
                str ", " ++ plusIntStr ext ++ [')']
            else
              unixRFC3339 (ext + unixTimestampOfZeroTime)
        | _, _ => u.value := by
  unfold formatTime
  rw [hw, he]

/-- A `time.Time` snapshot whose `wall` field has the monotonic bit
(bit 63) set and carries the 33-bit second count of 2021-01-01T00:00:00Z
(`1609459200 + 2682288000` seconds after 1 Jan 1885, shifted into bits
30–62), with `ext = 5000000000`. -/
def timeSample : ApiVariable :=
  .mk (str "t") (str "time.Time") .struct (str "raw") 6 0 false []
    [.mk (str "wall") (str "uint64") .uint
      (natStr (2 ^ 63 + 4291747200 * 2 ^ 30)) 7 0 false [] [],
     .mk (str "ext") (str "int64") .int (str "5000000000") 8 0 false [] []]

/-- C8: for a `time.Time` value with readable, parseable `wall` and `ext`
sub-fields whose wall word has the monotonic bit (bit 63) set, the decoder
reports the calendar time derived from the 33-bit wall second count
(`wall << 1 >> 31`) offset by the 1 Jan 1885 epoch, together with the
signed `ext` value; concretely, the wall count for 2021-01-01T00:00:00Z
paired with `ext = 5000000000` decodes to
`time.Time(2021-01-01T00:00:00Z, +5000000000)`.  If either sub-field is
missing, unreadable, empty, or unparseable, the decoder returns the raw
value string. -/
theorem C8_formatTime (v wallv extv : ApiVariable) (wall : Nat) (ext : Int)
    (hw : fieldVariable v (str "wall") = some wallv)
    (he : fieldVariable v (str "ext") = some extv)
    (hwu : wallv.unreadable = []) (heu : extv.unreadable = [])
    (hwv : wallv.value ≠ []) (hev : extv.value ≠ [])
    (hwp : goParseUint64 wallv.value = some wall)
    (hep : goParseInt64 extv.value = some ext)
    (hbit : Nat.testBit wall 63 = true) :
    formatTime v =
      str "time.Time(" ++
        unixRFC3339 (((wall * 2 % 2 ^ 64 / 2 ^ 31 : Nat) : Int) +
          unixTimestampOfWallEpoch) ++ str ", " ++ plusIntStr ext ++ [')'] ∧
    formatTime timeSample =
      str "time.Time(2021-01-01T00:00:00Z, +5000000000)" ∧
    (∀ u w e : ApiVariable,
      (fieldVariable u (str "wall") = none ∨
       fieldVariable u (str "ext") = none ∨
       (fieldVariable u (str "wall") = some w ∧
        fieldVariable u (str "ext") = some e ∧
        (w.unreadable ≠ [] ∨ e.unreadable ≠ [] ∨ w.value = [] ∨
         e.value = [] ∨ goParseUint64 w.value = none ∨
         goParseInt64 e.value = none))) →
      formatTime u = u.value) := by
  refine ⟨?_, by decide, ?_⟩
  · rw [formatTime_of_fields v wallv extv hw he,
      if_neg (by simp [hwu, heu, hwv, hev]), hwp, hep]
    simp [hbit]
  · intro u w e h
    rcases h with h | h | ⟨hw', he', hbad⟩
    · unfold formatTime
      rw [h]
    · unfold formatTime
      cases hfw : fieldVariable u (str "wall") <;> rw [h]
    · rw [formatTime_of_fields u w e hw' he']
      rcases hbad with hb | hb | hb | hb | hb | hb
      · rw [if_pos (Or.inl hb)]
      · rw [if_pos (Or.inr (Or.inl hb))]
      · rw [if_pos (Or.inr (Or.inr (Or.inl hb)))]
      · rw [if_pos (Or.inr (Or.inr (Or.inr hb)))]
      · by_cases hc : (w.unreadable ≠ [] ∨ e.unreadable ≠ [] ∨
            w.value = [] ∨ e.value = [])
        · rw [if_pos hc]
        · rw [if_neg hc, hb]
      · by_cases hc : (w.unreadable ≠ [] ∨ e.unreadable ≠ [] ∨
            w.value = [] ∨ e.value = [])
        · rw [if_pos hc]
        · rw [if_neg hc]
          cases hpu : goParseUint64 w.value <;> rw [hb]

/-- C8 witness: the 2021 example decodes through the monotonic branch, and
a `time.Time` with no sub-fields at all falls back to its raw string. -/
theorem C8_formatTime_witness :
    formatTime timeSample =
      str "time.Time(" ++
        unixRFC3339 ((((2 ^ 63 + 4291747200 * 2 ^ 30) * 2 % 2 ^ 64 / 2 ^ 31 :
          Nat) : Int) + unixTimestampOfWallEpoch) ++ str ", " ++
        plusIntStr 5000000000 ++ [')'] ∧
    formatTime (.mk (str "t") (str "time.Time") .struct (str "raw") 6 0
      false [] []) = str "raw" := by
  have h := C8_formatTime timeSample
    (.mk (str "wall") (str "uint64") .uint
      (natStr (2 ^ 63 + 4291747200 * 2 ^ 30)) 7 0 false [] [])
    (.mk (str "ext") (str "int64") .int (str "5000000000") 8 0 false [] [])
    (2 ^ 63 + 4291747200 * 2 ^ 30) 5000000000 rfl rfl rfl rfl (by decide)
    (by decide) (by decide) (by decide) (by decide)
  exact ⟨h.1, h.2.2
    (.mk (str "t") (str "time.Time") .struct (str "raw") 6 0 false [] [])
    (.mk [] [] .invalid [] 0 0 false [] [])
    (.mk [] [] .invalid [] 0 0 false [] []) (Or.inl rfl)⟩

end Gdlv
